import Mathlib

/-!
Verification development for the GLIDE-Lite corridor simulator
(`backend/core/glide/tsp.py`, `backend/core/glide/offsets.py`,
`backend/app_glide.py`).

Shallow embedding conventions:
* Python floats are modelled as `ℚ`, Python ints as `ℤ`.
* Python `int(x)` (truncation toward zero) is `pyint`;
  Python `x % c` on floats (sign of the divisor) is `pymod`;
  Python `%` on ints with positive modulus coincides with `Int.emod` (`%`).
* Python dicts keyed by strings / floats are modelled as total functions into
  `Option`-values (`.get(k, d)` becomes `(f k).getD d`).
* `np.clip(x, lo, hi)` is `np_clip`.
* Diagnostic `reason` strings keep only their fixed prefix (the numeric
  interpolations of the f-strings are display-only and are not modelled).
-/

/-- Python `int()` on a rational: truncation toward zero. -/
def pyint (q : ℚ) : ℤ := if 0 ≤ q then ⌊q⌋ else ⌈q⌉

/-- Python float `%`: result carries the sign of the divisor;
for the nonnegative dividends and positive divisors used here this is
`a - c * ⌊a / c⌋`. -/
def pymod (a c : ℚ) : ℚ := a - c * ⌊a / c⌋

/-- Model of `np.clip(x, lo, hi)`. -/
def np_clip (x lo hi : ℚ) : ℚ := min (max x lo) hi

/-! ### `backend/core/glide/tsp.py` -/

/-- Embedding of the `TSPDecision` dataclass. -/
structure TSPDecision where
  grant : Bool := false
  extend : ℤ := 0
  advance : ℤ := 0
  hold : ℤ := 0
  reason : String := ""
deriving Repr, DecidableEq

/-- Embedding of the `TSPController` state: three dicts keyed by `tls_id`. -/
structure TSPController where
  last_grant_time : String → Option ℚ
  total_extensions : String → Option ℤ
  cycle_start_time : String → Option ℚ

/-- Fresh controller (`TSPController.__init__`): all dicts empty. -/
def TSPController.init : TSPController :=
  { last_grant_time := fun _ => none
    total_extensions := fun _ => none
    cycle_start_time := fun _ => none }

/-- `TSPController.reset_cycle`. -/
def reset_cycle (c : TSPController) (tls_id : String) (current_time : ℚ) :
    TSPController :=
  { c with
    cycle_start_time := fun k => if k = tls_id then some current_time else c.cycle_start_time k
    total_extensions := fun k => if k = tls_id then some 0 else c.total_extensions k }

/-- `TSPController.can_grant_tsp`: `(current_time - last_time) >= cooldown`
with `last_time = self.last_grant_time.get(tls_id, 0)`. -/
def can_grant_tsp (c : TSPController) (tls_id : String) (current_time : ℚ)
    (cooldown : ℤ) : Bool :=
  decide ((cooldown : ℚ) ≤ current_time - ((c.last_grant_time tls_id).getD 0))

/-- `TSPController.get_cycle_extensions`. -/
def get_cycle_extensions (c : TSPController) (tls_id : String) : ℤ :=
  (c.total_extensions tls_id).getD 0

/-- `TSPController.record_grant`. -/
def record_grant (c : TSPController) (tls_id : String) (current_time : ℚ)
    (extend_sec : ℤ) : TSPController :=
  { c with
    last_grant_time := fun k => if k = tls_id then some current_time else c.last_grant_time k
    total_extensions := fun k =>
      if k = tls_id then some ((c.total_extensions k).getD 0 + extend_sec)
      else c.total_extensions k }

/-- Embedding of `tsp_policy`.  Source defaults: `H = 360`, `delta = 90`,
`max_ext = 8`, `max_adv = 6`, `cooldown = 60` (the `cooldown` parameter is
unused by the body, as in the source). -/
def tsp_policy (h_now H delta : ℚ) (max_ext max_adv : ℤ) (_cooldown : ℤ) :
    TSPDecision :=
  if H + delta < h_now then
    { grant := true, extend := max_ext, advance := max_adv, hold := 0
      reason := "Late bus" }
  else if h_now < H - delta then
    { grant := false, extend := 0, advance := 0, hold := 15
      reason := "Early bus" }
  else
    { grant := false, extend := 0, advance := 0, hold := 0
      reason := "Normal headway" }

/-- Embedding of `apply_tsp_to_phase`.  Source defaults: `min_green = 10`
(unused by the body, as in the source), `max_cycle_extension = 10`. -/
def apply_tsp_to_phase (_current_green_remaining : ℤ)
    (current_cycle_extensions : ℤ) (decision : TSPDecision)
    (_min_green : ℤ) (max_cycle_extension : ℤ) : ℤ × Bool :=
  if !decision.grant then (0, false)
  else
    let remaining_budget := max_cycle_extension - current_cycle_extensions
    if remaining_budget ≤ 0 then (0, false)
    else
      let requested_extension := decision.extend
      let actual_extension := min requested_extension remaining_budget
      if actual_extension ≤ 0 then (0, false)
      else (actual_extension, true)

/-- One grant-application round at node `n`, as wired in
`sumo_corridor.py::apply_tsp_control`: the extension actually recorded via
`record_grant` is the first component of `apply_tsp_to_phase` evaluated at the
node's current cycle extensions. -/
def tsp_grant_step (green_remaining min_green max_cycle_extension : ℤ)
    (n : String) (c : TSPController) (d : TSPDecision × ℚ) : TSPController :=
  record_grant c n d.2
    (apply_tsp_to_phase green_remaining (get_cycle_extensions c n) d.1
      min_green max_cycle_extension).1

/-! ### `backend/core/glide/offsets.py` -/

/-- Accumulation loop of `compute_offsets`: one output offset per distance,
threading `cumulative_travel`. -/
def offsetsAux (v_ms : ℚ) (cycle_s : ℤ) : ℚ → List ℚ → List ℤ
  | _, [] => []
  | cumulative_travel, distance :: rest =>
    let cumulative_travel' := cumulative_travel + distance / v_ms
    pyint (pymod cumulative_travel' (cycle_s : ℚ)) ::
      offsetsAux v_ms cycle_s cumulative_travel' rest

/-- Embedding of `compute_offsets`.  Source defaults: `cycle_s = 90`,
`v_prog_kmh = 40`. -/
def compute_offsets (distances_m : List ℚ) (cycle_s : ℤ) (v_prog_kmh : ℚ) :
    List ℤ :=
  if distances_m.isEmpty then [0]
  else
    let v_ms := v_prog_kmh / 3.6
    0 :: offsetsAux v_ms cycle_s 0 distances_m

/-- Embedding of `validate_offsets`.  The final monotonicity loop of the
source only executes `pass` and is therefore a no-op. -/
def validate_offsets (offsets : List ℤ) (cycle_s : ℤ) : Bool :=
  match offsets with
  | [] => false
  | o0 :: _ =>
    if o0 ≠ 0 then false
    else if offsets.any (fun o => decide (o < 0) || decide (cycle_s ≤ o)) then
      false
    else true

/-! ### `backend/app_glide.py` — constants and signal phase -/

/-- Stop-line coordinates of the five signal nodes (`run_sim`). -/
def stoplines : List (String × ℚ) :=
  [("J1", -600), ("J2", -300), ("J3", 0), ("J4", 300), ("J5", 600)]

/-- Bus stop coordinates (`run_sim`): `bus_stops = [-450.0, 450.0]`. -/
def bus_stops : List ℚ := [-450, 450]

/-- Berth capacity per stop (`STOP_BERTHS = 2`). -/
def STOP_BERTHS : ℕ := 2

/-- Coincidence window in seconds (`COINCIDENCE_WINDOW = 18`). -/
def COINCIDENCE_WINDOW : ℤ := 18

/-- Standoff distance of a queue-held bus (`PRESTOP_HOLD = 16.0`). -/
def PRESTOP_HOLD : ℚ := 16

/-- Stop-line buffer for red/yellow clamping (`STOPLINE_BUFFER = 4.5`). -/
def STOPLINE_BUFFER : ℚ := 4.5

/-- Green duration picked by `run_sim`: `G = int(0.6 * C)`. -/
def sim_G (C : ℤ) : ℤ := pyint (0.6 * (C : ℚ))

/-- Yellow duration picked by `run_sim`: `Y = 6`. -/
def sim_Y : ℤ := 6

/-- Green width of `offsets.py::compute_green_band`:
`green_width = int(main_split * cycle_s)`. -/
def green_width (main_split : ℚ) (cycle_s : ℤ) : ℤ := pyint (main_split * (cycle_s : ℚ))

/-- Embedding of `run_sim`'s `ew_state` closure: phase of node `nid` at tick
`t_int` given the per-node offsets (`offsets.get(nid, 0)` is modelled by a
total function), cycle `C`, green `G` and yellow `Y`.  Python `%` on ints
with a positive modulus is `Int.emod`. -/
def ew_state (offsets : String → ℤ) (C G Y : ℤ) (nid : String) (t_int : ℤ) :
    String :=
  let tau := (t_int + offsets nid) % C
  if tau < G then "G" else if tau < G + Y then "y" else "r"

/-! ### `backend/app_glide.py` — per-tick vehicle update (`update_one`) -/

/-- The fields of the per-vehicle dict that `update_one` reads or writes.
The render/accumulator fields (`y`, `enter_t`, `delay_s`, `signal_delay_s`,
`queue_hold_s`, `dwell_s`, `stops_count`) are neither read nor written by
`update_one` and are omitted from the embedding. -/
structure Vehicle where
  id : String
  kind : String
  line : Option String
  x : ℚ
  v : ℚ
  stopped : Bool
  stopped_at_station : Bool
  queueing : Bool
  dwell_until : Option ℤ
  at_stop : Option ℚ
  served_stops : List ℚ

/-- The per-stop mutable state of `run_sim` that `update_one` touches,
keyed by the stop coordinate.  The per-stop / per-line `monitor` counters
(`arrivals`, `sum_dwell`, `queue_holds`, ...) are statistics that do not feed
back into any vehicle or occupancy update and are omitted. -/
structure Env where
  stop_occupancy : ℚ → List String
  stop_release_time : ℚ → List ℤ
  last_arrival_time : ℚ → Option ℤ

/-- `next_stopline_x`: smallest stop-line coordinate strictly beyond
`x_now + 0.1`, if any. -/
def next_stopline_x (x_now : ℚ) : Option ℚ :=
  match (stoplines.map Prod.snd).filter (fun sx => decide (x_now + 0.1 < sx)) with
  | [] => none
  | a :: rest => some (rest.foldl min a)

/-- The node id whose stop line is nearest to `sx_next`
(`min(stoplines, key=lambda k: abs(stoplines[k] - sx_next))`; Python `min`
keeps the first of equally near keys, hence the strict comparison). -/
def nearest_node (sx_next : ℚ) : String :=
  match stoplines with
  | [] => ""
  | kv :: rest =>
    (rest.foldl (fun best c => if |c.2 - sx_next| < |best.2 - sx_next| then c else best) kv).1

/-- Red/yellow stop-line enforcement and final write-back shared by cars and
non-arriving buses: clamp `x_try`, set `x`, recompute `stopped`, and drop the
`stopped_at_station` key. -/
def stopline_clamp (green_now : String → Bool) (v : Vehicle) (x x_try : ℚ) :
    Vehicle :=
  let x_try' :=
    match next_stopline_x x with
    | none => x_try
    | some sx_next =>
      if green_now (nearest_node sx_next) = false ∧ x < sx_next then
        min x_try (sx_next - STOPLINE_BUFFER)
      else x_try
  { v with x := x_try', stopped := decide (x_try' = x), stopped_at_station := false }

/-- Entry-denial condition of the bus-stop zone check:
`len(occ) >= STOP_BERTHS or (last_arrival_time[sx] is not None and
(t_int - last_arrival_time[sx]) <= COINCIDENCE_WINDOW)`. -/
def stop_denied (env : Env) (sx : ℚ) (t_int : ℤ) : Bool :=
  decide (STOP_BERTHS ≤ (env.stop_occupancy sx).length) ||
    (match env.last_arrival_time sx with
     | some la => decide (t_int - la ≤ COINCIDENCE_WINDOW)
     | none => false)

/-- Denied entry: the bus is held `PRESTOP_HOLD` before the stop with its
queueing flag set; the stop state is unchanged (the `queue_holds` monitor
counter is omitted). -/
def hold_result (v : Vehicle) (env : Env) (sx : ℚ) : Vehicle × Env :=
  ({ v with x := sx - PRESTOP_HOLD, stopped := true, queueing := true }, env)

/-- Admitted entry: dwell starts (`dwell_until = t + dwell`), the bus id is
appended to the occupant list with its release tick, and the stop's last
arrival tick is recorded.  `dwellOf` abstracts the dwell-seconds lookup
(`L.dwell_sec` of the matching line when `req.bus_lines` is given, else the
global `req.dwell_sec`); the `monitor` statistics updates are omitted. -/
def admit_result (dwellOf : Option String → ℤ) (t_int : ℤ) (v : Vehicle)
    (env : Env) (sx : ℚ) : Vehicle × Env :=
  let dwell_until := t_int + dwellOf v.line
  ({ v with dwell_until := some dwell_until, at_stop := some sx, x := sx - 0.1,
            stopped := true, stopped_at_station := true, queueing := false },
   { env with
     stop_occupancy := fun q =>
       if q = sx then env.stop_occupancy sx ++ [v.id] else env.stop_occupancy q
     stop_release_time := fun q =>
       if q = sx then env.stop_release_time sx ++ [dwell_until] else env.stop_release_time q
     last_arrival_time := fun q =>
       if q = sx then some t_int else env.last_arrival_time q })

/-- The `for sx in bus_stops` crossing loop of `update_one`: first stop with
`x < sx <= x_try` resolves to a hold or an admission and returns.  (The
source's `if sx in v.get("served_stops", []): pass` line is a no-op and has
no counterpart here.) -/
def check_stops (dwellOf : Option String → ℤ) (t_int : ℤ) (v : Vehicle)
    (x x_try : ℚ) (env : Env) : List ℚ → Option (Vehicle × Env)
  | [] => none
  | sx :: rest =>
    if x < sx ∧ sx ≤ x_try then
      some (if stop_denied env sx t_int then hold_result v env sx
            else admit_result dwellOf t_int v env sx)
    else check_stops dwellOf t_int v x x_try env rest

/-- Dwell-completion release: remove the bus from its stop's occupant list
(and the parallel release-time list), mark the stop served, clear the dwell
state, and nudge `x` and `x_try` past the stop.  Returns the updated vehicle
and environment together with the updated local `x` and `x_try`. -/
def bus_release (env : Env) (v : Vehicle) (x x_try : ℚ) :
    Vehicle × Env × ℚ × ℚ :=
  match v.at_stop with
  | none => (v, env, x, x_try)
  | some sx0 =>
    let occ := env.stop_occupancy sx0
    let rel := env.stop_release_time sx0
    let p :=
      if v.id ∈ occ then
        let i_rm := occ.indexOf v.id
        (occ.eraseIdx i_rm, rel.eraseIdx i_rm)
      else (occ, rel)
    let x' := max x (sx0 + 0.2)
    ({ v with served_stops := v.served_stops ++ [sx0], dwell_until := none,
              stopped_at_station := false, at_stop := none, x := x' },
     { env with
       stop_occupancy := fun q => if q = sx0 then p.1 else env.stop_occupancy q
       stop_release_time := fun q => if q = sx0 then p.2 else env.stop_release_time q },
     x', max x_try (sx0 + 0.2))

/-- Embedding of `run_sim`'s `update_one` closure. -/
def update_one (green_now : String → Bool) (dwellOf : Option String → ℤ)
    (v : Vehicle) (t_int : ℤ) (env : Env) : Vehicle × Env :=
  let x := v.x
  let x_try := x + v.v
  if v.kind = "bus" then
    match v.dwell_until with
    | some du =>
      if t_int < du then
        ({ v with stopped := true, stopped_at_station := true, x := x }, env)
      else
        let r := bus_release env v x x_try
        match check_stops dwellOf t_int r.1 r.2.2.1 r.2.2.2 r.2.1 bus_stops with
        | some res => res
        | none => (stopline_clamp green_now r.1 r.2.2.1 r.2.2.2, r.2.1)
    | none =>
      match check_stops dwellOf t_int v x x_try env bus_stops with
      | some r => r
      | none => (stopline_clamp green_now v x x_try, env)
  else
    (stopline_clamp green_now v x x_try, env)

/-! ### `backend/app_glide.py` — car demand generation

The pseudorandom source is made explicit: `u` is the stream of unit draws
feeding `random.uniform(a, b) = a + (b - a) * u_i`, and `g` is the stream of
raw `np.random.lognormal` samples (any positive value).  Stream indices are
threaded through the loops; the two bounded `while` loops of the source are
given explicit fuel (the source loops terminate because `t` grows by at
least `0.6` each iteration and `k` by one window per iteration, so any
sufficiently large fuel computes the same list). -/

/-- `random.uniform(a, b)` applied to the unit draw `r ∈ [0, 1]`. -/
def py_uniform (a b r : ℚ) : ℚ := a + (b - a) * r

/-- `sample_headway` closure of `run_sim`:
`np.clip(np.random.lognormal(mean=log(mu), sigma=sigma), 0.6, 6.0)`, with the
raw log-normal sample supplied by the oracle stream. -/
def sample_headway (lognormal_draw : ℚ) : ℚ := np_clip lognormal_draw 0.6 6.0

/-- High-volume platoon injection (`for _ in range(3)` burst loop): appends
`t_burst` while it is inside the green window and the run, advancing it by
`uniform(0.35, 0.6)`.  Returns the appended times and the next `u`-index. -/
def gen_burst (STEPS t_end : ℚ) (u : ℕ → ℚ) : ℕ → ℚ → ℕ → List ℚ × ℕ
  | 0, _, ui => ([], ui)
  | n + 1, t_burst, ui =>
    if t_burst < t_end ∧ t_burst < STEPS then
      let next := gen_burst STEPS t_end u n (t_burst + py_uniform 0.35 0.6 (u ui)) (ui + 1)
      (t_burst :: next.1, next.2)
    else gen_burst STEPS t_end u n t_burst ui

/-- Green-window departure loop (`while t < t_end and t < STEPS`): appends
`t + uniform(-0.10, 0.10)` and advances `t` by a sampled headway.  Returns
the appended times and the next `u`- and `g`-indices. -/
def gen_green_window (STEPS t_end : ℚ) (u g : ℕ → ℚ) :
    ℕ → ℚ → ℕ → ℕ → List ℚ × ℕ × ℕ
  | 0, _, ui, gi => ([], ui, gi)
  | fuel + 1, t, ui, gi =>
    if t < t_end ∧ t < STEPS then
      let car := t + py_uniform (-0.10) 0.10 (u ui)
      let rest := gen_green_window STEPS t_end u g fuel (t + sample_headway (g gi)) (ui + 1) (gi + 1)
      (car :: rest.1, rest.2)
    else ([], ui, gi)

/-- Outer per-cycle window loop (`while True: t0 = k * C - offsets["J1"]; if
t0 > STEPS: break; ...`), producing the unsorted departure-time list. -/
def gen_car_departs (STEPS C G offsJ1 : ℚ) (target_vph : ℤ) (u g : ℕ → ℚ)
    (inner_fuel : ℕ) : ℕ → ℕ → ℕ → ℕ → List ℚ
  | 0, _, _, _ => []
  | fuel + 1, k, ui, gi =>
    let t0 := (k : ℚ) * C - offsJ1
    if STEPS < t0 then []
    else
      let t := max 0 t0 + py_uniform 0.25 0.9 (u ui)
      let t_end := t0 + G
      let burst :=
        if 1800 ≤ target_vph then
          gen_burst STEPS t_end u 3 (max 0 t0 + py_uniform 0.2 0.6 (u (ui + 1))) (ui + 2)
        else ([], ui + 1)
      let cars := gen_green_window STEPS t_end u g inner_fuel t burst.2 gi
      burst.1 ++ cars.1 ++
        gen_car_departs STEPS C G offsJ1 target_vph u g inner_fuel fuel (k + 1) cars.2.1 cars.2.2

/-- Sorted insertion used to model Python's stable `list.sort()` on the
departure times (any sort of rationals produces the same list). -/
def insert_sorted (a : ℚ) : List ℚ → List ℚ
  | [] => [a]
  | b :: l => if a ≤ b then a :: b :: l else b :: insert_sorted a l

/-- Model of `car_depart_times.sort()`. -/
def py_sort : List ℚ → List ℚ
  | [] => []
  | a :: l => insert_sorted a (py_sort l)

/-- `car_depart_times` after generation and sorting. -/
def car_depart_times (STEPS C G offsJ1 : ℚ) (target_vph : ℤ) (u g : ℕ → ℚ)
    (inner_fuel outer_fuel : ℕ) : List ℚ :=
  py_sort (gen_car_departs STEPS C G offsJ1 target_vph u g inner_fuel outer_fuel 0 0 0)

/-- Gaps between consecutive entries of a timeline (`np.diff` shape). -/
def consecutive_gaps (l : List ℚ) : List ℚ :=
  List.zipWith (fun a b => b - a) l l.tail

/-! ### `backend/app_glide.py` — run-end KPI aggregation -/

/-- `np.diff` on an integer time series. -/
def np_diff (l : List ℤ) : List ℤ := List.zipWith (fun a b => b - a) l l.tail

/-- Mean of an integer list as a rational (`np.mean` / `sum(...) / len(...)`). -/
def list_mean_int (l : List ℤ) : ℚ := (l.sum : ℚ) / (l.length : ℚ)

/-- Python's banker's rounding to an integer (`round(x)`): round half to
even; away from ties it agrees with ordinary rounding. -/
def round_half_even (q : ℚ) : ℤ :=
  if Int.fract q = 1 / 2 then (if 2 ∣ ⌊q⌋ then ⌊q⌋ else ⌊q⌋ + 1) else round q

/-- Python `round(x, ndigits)`. -/
def pyround (q : ℚ) (ndigits : ℕ) : ℚ :=
  (round_half_even (q * 10 ^ ndigits) : ℚ) / 10 ^ ndigits

/-- The `avg_discharge_headway_s` KPI of `run_sim`:
`float(np.mean(np.diff(car_exit_ts))) if len(car_exit_ts) >= 2 else None`,
then `round(avg_headway, 2) if avg_headway is not None else None`. -/
def avg_discharge_headway_s (car_exit_ts : List ℤ) : Option ℚ :=
  if 2 ≤ car_exit_ts.length then
    some (pyround (list_mean_int (np_diff car_exit_ts)) 2)
  else none

/-- Per-line monitor fields filled at run end.  The source stores
`round(var ** 0.5, 1)` for the standard deviation; a square root is
irrational, so the embedding carries the (unrounded) variance instead —
it is defined exactly when the source's field is. -/
structure LineStats where
  observed_headway_avg : Option ℚ
  observed_headway_var : Option ℚ
  on_time_pct : Option ℚ
deriving DecidableEq

/-- Run-end per-line monitor aggregation of `run_sim` (lines with `>= 2`
arrival ticks get mean / spread / on-time stats, others `None`). -/
def finalize_line (arr_times : List ℤ) (scheduled_headway_sec ab_tolerance_sec : ℤ) :
    LineStats :=
  if 2 ≤ arr_times.length then
    let diffs := np_diff arr_times
    let avg := list_mean_int diffs
    let var := (diffs.map (fun d => ((d : ℚ) - avg) ^ 2)).sum / (diffs.length : ℚ)
    { observed_headway_avg := some (pyround avg 1)
      observed_headway_var := some var
      on_time_pct := some (pyround
        (100 * ((diffs.filter (fun d => decide (|d - scheduled_headway_sec| ≤ ab_tolerance_sec))).length : ℚ)
          / (diffs.length : ℚ)) 1) }
  else
    { observed_headway_avg := none, observed_headway_var := none, on_time_pct := none }

/-! ### Helper lemmas -/

lemma get_cycle_extensions_record (c : TSPController) (n : String) (t : ℚ)
    (ext : ℤ) :
    get_cycle_extensions (record_grant c n t ext) n =
      get_cycle_extensions c n + ext := by
  simp [get_cycle_extensions, record_grant]

lemma get_cycle_extensions_reset (c : TSPController) (n : String) (t : ℚ) :
    get_cycle_extensions (reset_cycle c n t) n = 0 := by
  simp [get_cycle_extensions, reset_cycle]

lemma apply_tsp_budget (gr cur mg mce : ℤ) (d : TSPDecision) (h : cur ≤ mce) :
    cur + (apply_tsp_to_phase gr cur d mg mce).1 ≤ mce := by
  unfold apply_tsp_to_phase
  rcases d.grant with _ | _
  · simpa using h
  · simp only [Bool.not_true, Bool.false_eq_true, if_false]
    split_ifs with h1 h2
    · simpa using h
    · simpa using h
    · have : min d.extend (mce - cur) ≤ mce - cur := min_le_right _ _
      simp only
      omega

lemma tsp_grant_step_budget (gr mg mce : ℤ) (n : String) (c : TSPController)
    (d : TSPDecision × ℚ) (h : get_cycle_extensions c n ≤ mce) :
    get_cycle_extensions (tsp_grant_step gr mg mce n c d) n ≤ mce := by
  unfold tsp_grant_step
  rw [get_cycle_extensions_record]
  exact apply_tsp_budget gr _ mg mce d.1 h

lemma foldl_grant_budget (gr mg mce : ℤ) (n : String) :
    ∀ (ds : List (TSPDecision × ℚ)) (c : TSPController),
      get_cycle_extensions c n ≤ mce →
      get_cycle_extensions (ds.foldl (tsp_grant_step gr mg mce n) c) n ≤ mce
  | [], _, h => h
  | d :: ds, c, h =>
    foldl_grant_budget gr mg mce n ds _ (tsp_grant_step_budget gr mg mce n c d h)

/-! ### Claim C2 (corrected) -/

/-- C2 (counterexample to the claim as stated): the claim asserts the
hold-15 outcome for every `h < H - delta`, but with a negative tolerance
`delta = -10`, `H = 0`, `h = 0` we have `h < H - delta` while the code takes
the first (`h > H + delta`) branch and grants with `hold = 0`. -/
theorem C2_counterexample :
    (0 : ℚ) < 0 - (-10 : ℚ) ∧
    (tsp_policy 0 0 (-10) 8 6 60).grant = true ∧
    (tsp_policy 0 0 (-10) 8 6 60).hold = 0 := by
  refine ⟨by norm_num, ?_, ?_⟩ <;> norm_num [tsp_policy]

/-- C2 (amended: for a nonnegative tolerance `delta`): `tsp_policy` grants
with `extend = max_ext`, `advance = max_adv`, `hold = 0` exactly on
`h_now > H + delta`; holds 15 s without granting on `h_now < H - delta`; and
returns all-zero, no-grant otherwise — in particular at both exact
boundaries, since the triggering comparisons are strict. -/
theorem C2_theorem (h_now H delta : ℚ) (max_ext max_adv cooldown : ℤ)
    (hdelta : 0 ≤ delta) :
    (H + delta < h_now →
      (tsp_policy h_now H delta max_ext max_adv cooldown).grant = true ∧
      (tsp_policy h_now H delta max_ext max_adv cooldown).extend = max_ext ∧
      (tsp_policy h_now H delta max_ext max_adv cooldown).advance = max_adv ∧
      (tsp_policy h_now H delta max_ext max_adv cooldown).hold = 0) ∧
    (h_now < H - delta →
      (tsp_policy h_now H delta max_ext max_adv cooldown).grant = false ∧
      (tsp_policy h_now H delta max_ext max_adv cooldown).extend = 0 ∧
      (tsp_policy h_now H delta max_ext max_adv cooldown).advance = 0 ∧
      (tsp_policy h_now H delta max_ext max_adv cooldown).hold = 15) ∧
    (H - delta ≤ h_now → h_now ≤ H + delta →
      (tsp_policy h_now H delta max_ext max_adv cooldown).grant = false ∧
      (tsp_policy h_now H delta max_ext max_adv cooldown).extend = 0 ∧
      (tsp_policy h_now H delta max_ext max_adv cooldown).advance = 0 ∧
      (tsp_policy h_now H delta max_ext max_adv cooldown).hold = 0) := by
  unfold tsp_policy
  refine ⟨fun hgt => ?_, fun hlt => ?_, fun hge hle => ?_⟩
  · rw [if_pos hgt]; exact ⟨rfl, rfl, rfl, rfl⟩
  · rw [if_neg (by linarith), if_pos hlt]; exact ⟨rfl, rfl, rfl, rfl⟩
  · rw [if_neg (by linarith), if_neg (by linarith)]; exact ⟨rfl, rfl, rfl, rfl⟩

/-- C2 witness: the three branches at the spec's own test points
(`h = 480`, `h = 240`, and the exact boundary `h = 450` with
`H = 360`, `delta = 90`). -/
theorem C2_witness :
    ((tsp_policy 480 360 90 8 6 60).grant = true ∧
     (tsp_policy 480 360 90 8 6 60).extend = 8 ∧
     (tsp_policy 480 360 90 8 6 60).advance = 6 ∧
     (tsp_policy 480 360 90 8 6 60).hold = 0) ∧
    ((tsp_policy 240 360 90 8 6 60).grant = false ∧
     (tsp_policy 240 360 90 8 6 60).extend = 0 ∧
     (tsp_policy 240 360 90 8 6 60).advance = 0 ∧
     (tsp_policy 240 360 90 8 6 60).hold = 15) ∧
    ((tsp_policy 450 360 90 8 6 60).grant = false ∧
     (tsp_policy 450 360 90 8 6 60).extend = 0 ∧
     (tsp_policy 450 360 90 8 6 60).advance = 0 ∧
     (tsp_policy 450 360 90 8 6 60).hold = 0) :=
  ⟨(C2_theorem 480 360 90 8 6 60 (by norm_num)).1 (by norm_num),
   (C2_theorem 240 360 90 8 6 60 (by norm_num)).2.1 (by norm_num),
   (C2_theorem 450 360 90 8 6 60 (by norm_num)).2.2 (by norm_num) (by norm_num)⟩

/-! ### Claim C3 (confirmed) -/

/-- C3: `apply_tsp_to_phase` returns `(min requested (budget remaining),
true)` when the decision grants, the remaining budget is positive and the
resulting extension is positive; returns `(0, false)` when the grant flag is
false or the budget is exhausted; and consequently a node's cumulative
extensions recorded via `record_grant` with amounts produced by
`apply_tsp_to_phase` never exceed the budget after a `reset_cycle`. -/
theorem C3_theorem :
    (∀ (gr cur : ℤ) (d : TSPDecision) (mg mce : ℤ),
      d.grant = true → 0 < mce - cur → 0 < min d.extend (mce - cur) →
      apply_tsp_to_phase gr cur d mg mce = (min d.extend (mce - cur), true)) ∧
    (∀ (gr cur : ℤ) (d : TSPDecision) (mg mce : ℤ),
      d.grant = false ∨ mce - cur ≤ 0 →
      apply_tsp_to_phase gr cur d mg mce = (0, false)) ∧
    (∀ (gr mg mce : ℤ) (n : String) (c : TSPController) (t0 : ℚ)
      (ds : List (TSPDecision × ℚ)), 0 ≤ mce →
      get_cycle_extensions
        (ds.foldl (tsp_grant_step gr mg mce n) (reset_cycle c n t0)) n ≤ mce) := by
  refine ⟨?_, ?_, ?_⟩
  · intro gr cur d mg mce hg hb hm
    unfold apply_tsp_to_phase
    rw [hg]
    simp only [Bool.not_true, Bool.false_eq_true, if_false]
    rw [if_neg (by omega), if_neg (by omega)]
  · intro gr cur d mg mce h
    unfold apply_tsp_to_phase
    rcases h with h | h
    · rw [h]; rfl
    · rcases hb : d.grant with _ | _
      · rfl
      · simp only [Bool.not_true, Bool.false_eq_true, if_false]
        rw [if_pos h]
  · intro gr mg mce n c t0 ds h
    exact foldl_grant_budget gr mg mce n ds _ (by rw [get_cycle_extensions_reset]; exact h)

/-- Decision used to instantiate the C3 witness (a granted 8-second
request, the policy's default `max_ext`). -/
def tspDecGrant8 : TSPDecision :=
  { grant := true, extend := 8, advance := 6, hold := 0, reason := "" }

/-- C3 witness: with budget 10 and 2 s already used, the 8-second grant is
applied in full; with the budget exhausted the grant is refused; and two
recorded grants after a cycle reset stay within the 10-second budget. -/
theorem C3_witness :
    apply_tsp_to_phase 30 2 tspDecGrant8 10 10 = (min tspDecGrant8.extend (10 - 2), true) ∧
    apply_tsp_to_phase 30 10 tspDecGrant8 10 10 = (0, false) ∧
    get_cycle_extensions
      ([(tspDecGrant8, (10 : ℚ)), (tspDecGrant8, 200)].foldl
        (tsp_grant_step 30 10 10 "J1") (reset_cycle TSPController.init "J1" 0)) "J1" ≤ 10 :=
  ⟨C3_theorem.1 30 2 tspDecGrant8 10 10 rfl (by norm_num) (by norm_num [tspDecGrant8]),
   C3_theorem.2.1 30 10 tspDecGrant8 10 10 (Or.inr (by norm_num)),
   C3_theorem.2.2 30 10 10 "J1" TSPController.init 0 _ (by norm_num)⟩

/-! ### Claim C4 (confirmed) -/

/-- C4: after `record_grant(n, t)`, `can_grant_tsp(n, t', cooldown)` is
false whenever `t' - t < cooldown` and true whenever `t' - t ≥ cooldown`;
hence a second grant attempt at the same node within one cooldown window is
refused. -/
theorem C4_theorem (c : TSPController) (n : String) (t : ℚ) (e : ℤ) (t' : ℚ)
    (cooldown : ℤ) :
    (t' - t < (cooldown : ℚ) →
      can_grant_tsp (record_grant c n t e) n t' cooldown = false) ∧
    ((cooldown : ℚ) ≤ t' - t →
      can_grant_tsp (record_grant c n t e) n t' cooldown = true) := by
  constructor <;> intro h <;>
    simp only [can_grant_tsp, record_grant, if_pos rfl, Option.getD_some,
      decide_eq_false_iff_not, decide_eq_true_eq, not_le]
  · exact h
  · exact h

/-- C4 witness: a grant recorded at `t = 100` blocks at `t' = 130` and
unblocks at `t' = 170` under a 60-second cooldown. -/
theorem C4_witness :
    can_grant_tsp (record_grant TSPController.init "J1" 100 5) "J1" 130 60 = false ∧
    can_grant_tsp (record_grant TSPController.init "J1" 100 5) "J1" 170 60 = true :=
  ⟨(C4_theorem TSPController.init "J1" 100 5 130 60).1 (by norm_num),
   (C4_theorem TSPController.init "J1" 100 5 170 60).2 (by norm_num)⟩

/-! ### Offset helper lemmas -/

lemma pymod_nonneg (a c : ℚ) (hc : 0 < c) : 0 ≤ pymod a c := by
  unfold pymod
  have h1 : (⌊a / c⌋ : ℚ) ≤ a / c := Int.floor_le _
  have h2 : c * (⌊a / c⌋ : ℚ) ≤ c * (a / c) :=
    mul_le_mul_of_nonneg_left h1 (le_of_lt hc)
  have h3 : c * (a / c) = a := mul_div_cancel₀ a (ne_of_gt hc)
  linarith

lemma pymod_lt (a c : ℚ) (hc : 0 < c) : pymod a c < c := by
  unfold pymod
  have h1 : a / c < (⌊a / c⌋ : ℚ) + 1 := Int.lt_floor_add_one _
  have h2 : c * (a / c) < c * ((⌊a / c⌋ : ℚ) + 1) :=
    (mul_lt_mul_left hc).mpr h1
  have h3 : c * (a / c) = a := mul_div_cancel₀ a (ne_of_gt hc)
  nlinarith

lemma pyint_nonneg (q : ℚ) (h : 0 ≤ q) : 0 ≤ pyint q := by
  unfold pyint
  rw [if_pos h]
  exact Int.floor_nonneg.mpr h

lemma pyint_lt (q : ℚ) (c : ℤ) (h0 : 0 ≤ q) (h : q < (c : ℚ)) : pyint q < c := by
  unfold pyint
  rw [if_pos h0]
  exact Int.floor_lt.mpr h

lemma offsetsAux_mem_bounds (v_ms : ℚ) (c : ℤ) (hc : 1 ≤ c) :
    ∀ (ds : List ℚ) (acc : ℚ) (o : ℤ), o ∈ offsetsAux v_ms c acc ds →
      0 ≤ o ∧ o < c := by
  intro ds
  induction ds with
  | nil => intro acc o ho; simp [offsetsAux] at ho
  | cons d rest ih =>
    intro acc o ho
    have hcq : (0 : ℚ) < (c : ℚ) := by exact_mod_cast hc
    rcases (by simpa [offsetsAux] using ho :
        o = pyint (pymod (acc + d / v_ms) (c : ℚ)) ∨
          o ∈ offsetsAux v_ms c (acc + d / v_ms) rest) with h | h
    · subst h
      exact ⟨pyint_nonneg _ (pymod_nonneg _ _ hcq),
        pyint_lt _ _ (pymod_nonneg _ _ hcq) (pymod_lt _ _ hcq)⟩
    · exact ih _ o h

lemma offsetsAux_getElem (v_ms : ℚ) (c : ℤ) :
    ∀ (ds : List ℚ) (acc : ℚ) (i : ℕ), i < ds.length →
      (offsetsAux v_ms c acc ds)[i]? =
        some (pyint (pymod (acc + ((ds.take (i + 1)).map (fun d => d / v_ms)).sum) (c : ℚ))) := by
  intro ds
  induction ds with
  | nil => intro acc i hi; simp at hi
  | cons d rest ih =>
    intro acc i hi
    cases i with
    | zero => simp [offsetsAux]
    | succ j =>
      have hj : j < rest.length := by simpa using hi
      have := ih (acc + d / v_ms) j hj
      have harg : acc + d / v_ms + ((rest.take (j + 1)).map (fun d => d / v_ms)).sum
          = acc + (((d :: rest).take (j + 1 + 1)).map (fun d => d / v_ms)).sum := by
        rw [List.take_succ_cons]
        simp [List.sum_cons]
        ring
      simp only [offsetsAux, List.getElem?_cons_succ]
      rw [this, harg]

lemma compute_offsets_eval :
    compute_offsets [300, 280] 90 40 = [0, 27, 52] := by
  have h1 : ((300 : ℚ)) / (40 / 3.6) = 27 := by norm_num
  have h2 : (0 : ℚ) + 300 / (40 / 3.6) = 27 := by rw [h1]; ring
  norm_num [compute_offsets, offsetsAux, pymod, pyint]

/-! ### Claim C6 (confirmed) -/

/-- C6: for nonnegative distances, a positive cycle and a positive speed,
`compute_offsets` starts with 0, keeps every offset inside `[0, cycle)`, and
the entry after the `i`-th distance is the cumulative travel time
`sum(distance / (v / 3.6))` reduced by the float modulo and truncated toward
zero; in particular `compute_offsets([300, 280], 90, 40) = [0, 27, 52]`. -/
theorem C6_theorem :
    (∀ (ds : List ℚ) (cycle : ℤ) (v : ℚ), (∀ d ∈ ds, 0 ≤ d) → 1 ≤ cycle →
      0 < v → (compute_offsets ds cycle v).head? = some 0) ∧
    (∀ (ds : List ℚ) (cycle : ℤ) (v : ℚ) (o : ℤ), (∀ d ∈ ds, 0 ≤ d) →
      1 ≤ cycle → 0 < v → o ∈ compute_offsets ds cycle v → 0 ≤ o ∧ o < cycle) ∧
    (∀ (ds : List ℚ) (cycle : ℤ) (v : ℚ) (i : ℕ), (∀ d ∈ ds, 0 ≤ d) →
      1 ≤ cycle → 0 < v → i < ds.length →
      (compute_offsets ds cycle v)[i + 1]? =
        some (pyint (pymod (((ds.take (i + 1)).map (fun d => d / (v / 3.6))).sum) (cycle : ℚ)))) ∧
    compute_offsets [300, 280] 90 40 = [0, 27, 52] := by
  refine ⟨?_, ?_, ?_, compute_offsets_eval⟩
  · intro ds cycle v _ _ _
    unfold compute_offsets
    split_ifs <;> rfl
  · intro ds cycle v o _ hc _ ho
    unfold compute_offsets at ho
    split_ifs at ho with he
    · simp at ho
      omega
    · rcases (by simpa using ho) with h | h
      · omega
      · exact offsetsAux_mem_bounds _ _ hc ds 0 o h
  · intro ds cycle v i _ _ _ hi
    unfold compute_offsets
    rw [if_neg (by simp [List.isEmpty_iff]; rintro rfl; simp at hi)]
    simp only [List.getElem?_cons_succ]
    rw [offsetsAux_getElem _ _ ds 0 i hi]
    congr 3
    ring

/-- C6 witness: the standard corridor case `[300, 280]`, cycle 90,
40 km/h — head 0, the offset 27 lies in `[0, 90)`, and the entry after the
first distance equals the truncated reduced cumulative travel time. -/
theorem C6_witness :
    (compute_offsets [300, 280] 90 40).head? = some 0 ∧
    (0 ≤ (27 : ℤ) ∧ (27 : ℤ) < 90) ∧
    (compute_offsets [300, 280] 90 40)[1]? =
      some (pyint (pymod ((([300, 280] : List ℚ).take 1).map (fun d => d / (40 / 3.6))).sum 90)) ∧
    compute_offsets [300, 280] 90 40 = [0, 27, 52] :=
  ⟨C6_theorem.1 [300, 280] 90 40 (by norm_num [List.forall_mem_cons]) (by norm_num) (by norm_num),
   C6_theorem.2.1 [300, 280] 90 40 27 (by norm_num [List.forall_mem_cons]) (by norm_num)
     (by norm_num) (by rw [C6_theorem.2.2.2]; norm_num),
   C6_theorem.2.2.1 [300, 280] 90 40 0 (by norm_num [List.forall_mem_cons]) (by norm_num)
     (by norm_num) (by norm_num),
   C6_theorem.2.2.2⟩

/-! ### Claim C10 (confirmed) -/

/-- C10: the offset validator accepts every sequence the offset computation
produces — for a non-empty list of nonnegative distances, a cycle `≥ 1` and
a positive speed, `validate_offsets (compute_offsets ds cycle v) cycle` is
true. -/
theorem C10_theorem (ds : List ℚ) (cycle : ℤ) (v : ℚ) (hne : ds ≠ [])
    (hd : ∀ d ∈ ds, 0 ≤ d) (hc : 1 ≤ cycle) (hv : 0 < v) :
    validate_offsets (compute_offsets ds cycle v) cycle = true := by
  unfold compute_offsets
  rw [if_neg (by simpa [List.isEmpty_iff] using hne)]
  unfold validate_offsets
  simp only [ne_eq, not_true_eq_false, if_false]
  split_ifs with hany
  · exfalso
    rcases (by simpa using hany) with h | ⟨o, ho, h⟩
    · omega
    · have := offsetsAux_mem_bounds _ _ hc ds 0 o ho
      omega
  · rfl

/-- C10 witness: the corridor preset `[300, 280]`, cycle 90, 40 km/h
validates. -/
theorem C10_witness :
    validate_offsets (compute_offsets [300, 280] 90 40) 90 = true :=
  C10_theorem [300, 280] 90 40 (by simp) (by norm_num [List.forall_mem_cons])
    (by norm_num) (by norm_num)

/-! ### Claim C9 (confirmed) -/

/-- C9: with fewer than 2 car exits the mean discharge headway KPI is
`none` (undefined, not zero), and a bus line with fewer than 2 recorded
arrivals reports its observed-headway mean, spread and on-time percentage
as `none`. -/
theorem C9_theorem :
    (∀ car_exit_ts : List ℤ, car_exit_ts.length < 2 →
      avg_discharge_headway_s car_exit_ts = none) ∧
    (∀ (arr_times : List ℤ) (sched tol : ℤ), arr_times.length < 2 →
      finalize_line arr_times sched tol =
        { observed_headway_avg := none, observed_headway_var := none,
          on_time_pct := none }) := by
  constructor
  · intro ts h
    unfold avg_discharge_headway_s
    rw [if_neg (by omega)]
  · intro ts sched tol h
    unfold finalize_line
    rw [if_neg (by omega)]

/-- C9 witness: a single exit tick / a single arrival tick produce
undefined statistics. -/
theorem C9_witness :
    avg_discharge_headway_s [7] = none ∧
    finalize_line [7] 300 120 =
      { observed_headway_avg := none, observed_headway_var := none,
        on_time_pct := none } :=
  ⟨C9_theorem.1 [7] (by norm_num),
   C9_theorem.2 [7] 300 120 (by norm_num)⟩

/-! ### Claim C8 (corrected) -/

/-- Unit-uniform draw stream that always returns 0 (a legal value of
`random.random()`). -/
def u_zero : ℕ → ℚ := fun _ => 0

/-- Log-normal draw stream that always returns 7 (a legal, positive
log-normal sample). -/
def g_seven : ℕ → ℚ := fun _ => 7

/-- C8 (counterexample to the claim as stated): in a legal run
(`steps = 60`, `cycle = 30`, `G = int(0.6*30) = 18`, first offset 0, target
volume 1700 vph) with all unit draws 0 and all log-normal samples 7, the
generated timeline has a consecutive gap outside `[0.6, 6.0]` — the gap
between the last car of one green window and the first car of the next is
18 seconds. -/
theorem C8_counterexample :
    (consecutive_gaps (car_depart_times 60 30 18 0 1700 u_zero g_seven 6 4)).any
      (fun gap => decide (gap < 0.6) || decide (6.0 < gap)) = true := by
  norm_num [car_depart_times, gen_car_departs, gen_green_window, gen_burst,
    py_sort, insert_sorted, consecutive_gaps, sample_headway, np_clip,
    py_uniform, u_zero, g_seven]

/-- C8 (amended): every inter-vehicle gap sampled by the demand generator's
`sample_headway` (the clipped log-normal draw) lies within `[0.6, 6.0]`;
the gaps between consecutive departure times of the assembled timeline,
however, may fall outside this band (platoon injection, the `±0.1` jitter
added to each appended time, and the spacing between green windows). -/
theorem C8_theorem (lognormal_draw : ℚ) :
    0.6 ≤ sample_headway lognormal_draw ∧ sample_headway lognormal_draw ≤ 6.0 := by
  unfold sample_headway np_clip
  exact ⟨le_min (le_max_right _ _) (by norm_num), min_le_right _ _⟩

/-! ### Claim C7 (corrected) -/

/-- C7 (counterexample to the claim as stated): at cycle `C = 31` the code's
green duration is `int(0.6*31) = 18`, not `round(0.6*31) = 19`: at tick 18
with offset 0 the phase predicate of the claim (`tau < round(0.6*C)`) holds,
yet `ew_state` reports yellow, not green. -/
theorem C7_counterexample :
    sim_G 31 = 18 ∧ round ((0.6 : ℚ) * 31) = 19 ∧
    ((18 + 0) % 31 : ℤ) < round ((0.6 : ℚ) * 31) ∧
    ew_state (fun _ => 0) 31 (sim_G 31) sim_Y "J1" 18 ≠ "G" := by
  have h1 : sim_G 31 = 18 := by norm_num [sim_G, pyint]
  have h2 : round ((0.6 : ℚ) * 31) = 19 := by norm_num [round_eq]
  refine ⟨h1, h2, by rw [h2]; norm_num, ?_⟩
  rw [h1]
  norm_num [ew_state, sim_Y]
  decide

/-- C7 (amended): for every cycle `C` in `[30, 180]` the green duration used
by the signal plan equals `0.6 × C` truncated toward zero (`int(0.6*C)`,
equal to `⌊0.6 C⌋` and to `compute_green_band`'s width at the default 0.6
split), the yellow duration is 6 seconds, and the node phase at tick `t` is
green exactly when `(t + offset) mod C < int(0.6*C)`, yellow for the next 6
seconds, and red otherwise. -/
theorem C7_theorem (C : ℤ) (offsets : String → ℤ) (nid : String) (t : ℤ)
    (h30 : 30 ≤ C) (h180 : C ≤ 180) :
    sim_G C = ⌊(0.6 : ℚ) * (C : ℚ)⌋ ∧
    green_width 0.6 C = sim_G C ∧
    sim_Y = 6 ∧
    (ew_state offsets C (sim_G C) sim_Y nid t = "G" ↔
      (t + offsets nid) % C < sim_G C) ∧
    (ew_state offsets C (sim_G C) sim_Y nid t = "y" ↔
      (sim_G C ≤ (t + offsets nid) % C ∧ (t + offsets nid) % C < sim_G C + 6)) ∧
    (ew_state offsets C (sim_G C) sim_Y nid t = "r" ↔
      sim_G C + 6 ≤ (t + offsets nid) % C) := by
  have hG : sim_G C = ⌊(0.6 : ℚ) * (C : ℚ)⌋ := by
    unfold sim_G pyint
    rw [if_pos (by positivity)]
  refine ⟨hG, rfl, rfl, ?_, ?_, ?_⟩ <;>
    · unfold ew_state sim_Y
      dsimp only
      split_ifs with h1 h2 <;> simp [h1] <;> omega

/-! ### Stepper helper lemmas -/

lemma check_stops_cons (dwellOf : Option String → ℤ) (t : ℤ) (v : Vehicle)
    (x x_try : ℚ) (env : Env) (sx : ℚ) (rest : List ℚ)
    (h1 : x < sx) (h2 : sx ≤ x_try) :
    check_stops dwellOf t v x x_try env (sx :: rest) =
      some (if stop_denied env sx t then hold_result v env sx
            else admit_result dwellOf t v env sx) := by
  unfold check_stops
  rw [if_pos ⟨h1, h2⟩]

lemma stop_denied_false_iff (env : Env) (sx : ℚ) (t : ℤ) :
    stop_denied env sx t = false ↔
      ((env.stop_occupancy sx).length < STOP_BERTHS ∧
        ∀ la ∈ env.last_arrival_time sx, COINCIDENCE_WINDOW < t - la) := by
  unfold stop_denied
  cases h : env.last_arrival_time sx with
  | none => simp [not_le]
  | some la =>
    simp [not_le]
    intro _
    omega

lemma check_stops_occ_le (dwellOf : Option String → ℤ) (t : ℤ) (v : Vehicle)
    (x x_try : ℚ) (env : Env)
    (h : ∀ s, (env.stop_occupancy s).length ≤ STOP_BERTHS) :
    ∀ (l : List ℚ) (r : Vehicle × Env),
      check_stops dwellOf t v x x_try env l = some r →
      ∀ s, (r.2.stop_occupancy s).length ≤ STOP_BERTHS
  | [], r, hr => by simp [check_stops] at hr
  | sx :: rest, r, hr => by
    rw [check_stops] at hr
    split_ifs at hr with hcross hd
    · simp only [Option.some.injEq] at hr
      subst hr
      intro s
      simpa [hold_result] using h s
    · simp only [Option.some.injEq] at hr
      subst hr
      intro s
      have hlen : (env.stop_occupancy sx).length < STOP_BERTHS :=
        ((stop_denied_false_iff env sx t).mp (by simpa using hd)).1
      simp only [admit_result]
      by_cases hs : s = sx
      · subst hs
        simp only [if_pos rfl, eq_self_iff_true, if_true, List.length_append,
          List.length_singleton]
        simp
        omega
      · rw [if_neg hs]
        exact h s
    · exact check_stops_occ_le dwellOf t v x x_try env h rest r hr

lemma bus_release_occ_le (env : Env) (v : Vehicle) (x x_try : ℚ)
    (h : ∀ s, (env.stop_occupancy s).length ≤ STOP_BERTHS) :
    ∀ s, (((bus_release env v x x_try).2.1).stop_occupancy s).length ≤ STOP_BERTHS := by
  intro s
  unfold bus_release
  cases v.at_stop with
  | none => exact h s
  | some sx0 =>
    dsimp only
    by_cases hs : s = sx0
    · subst hs
      rw [if_pos rfl]
      split_ifs with hin
      · exact le_trans (List.length_eraseIdx_le _ _) (h s)
      · exact h s
    · rw [if_neg hs]
      exact h s

lemma update_one_occ_le (green_now : String → Bool)
    (dwellOf : Option String → ℤ) (v : Vehicle) (t : ℤ) (env : Env)
    (h : ∀ s, (env.stop_occupancy s).length ≤ STOP_BERTHS) :
    ∀ s, (((update_one green_now dwellOf v t env).2).stop_occupancy s).length ≤ STOP_BERTHS := by
  unfold update_one
  split_ifs with hk
  · cases hdu : v.dwell_until with
    | some du =>
      dsimp only
      split_ifs with ht
      · exact h
      · have hrel := bus_release_occ_le env v v.x (v.x + v.v) h
        cases hc : check_stops dwellOf t (bus_release env v v.x (v.x + v.v)).1
            (bus_release env v v.x (v.x + v.v)).2.2.1
            (bus_release env v v.x (v.x + v.v)).2.2.2
            (bus_release env v v.x (v.x + v.v)).2.1 bus_stops with
        | none => exact hrel
        | some res =>
          exact check_stops_occ_le _ _ _ _ _ _ hrel bus_stops res hc
    | none =>
      dsimp only
      cases hc : check_stops dwellOf t v v.x (v.x + v.v) env bus_stops with
      | none => exact h
      | some res =>
        exact check_stops_occ_le _ _ _ _ _ _ h bus_stops res hc
  · exact h

/-! ### Claim C1 (confirmed) -/

/-- C1: (a) the per-tick update keeps every stop's occupant list at or below
the berth capacity 2; (b) a bus whose tentative motion crosses a stop this
tick (`x < sx ≤ x_try`) is held 16 units before the stop with its queueing
flag set when the stop is at capacity or the previous arrival is within the
18-second window, and otherwise admitted with its id appended; (c) the
denial condition is exactly "occupant count at capacity or previous arrival
within 18 s". -/
theorem C1_theorem :
    (∀ (green_now : String → Bool) (dwellOf : Option String → ℤ)
      (v : Vehicle) (t : ℤ) (env : Env) (s : ℚ),
      (∀ s', (env.stop_occupancy s').length ≤ STOP_BERTHS) →
      (((update_one green_now dwellOf v t env).2).stop_occupancy s).length ≤ STOP_BERTHS) ∧
    (∀ (dwellOf : Option String → ℤ) (t : ℤ) (v : Vehicle) (x x_try : ℚ)
      (env : Env) (sx : ℚ) (rest : List ℚ), x < sx → sx ≤ x_try →
      check_stops dwellOf t v x x_try env (sx :: rest) =
        some (if stop_denied env sx t then hold_result v env sx
              else admit_result dwellOf t v env sx)) ∧
    (∀ (env : Env) (sx : ℚ) (t : ℤ),
      stop_denied env sx t = false ↔
        ((env.stop_occupancy sx).length < STOP_BERTHS ∧
          ∀ la ∈ env.last_arrival_time sx, COINCIDENCE_WINDOW < t - la)) :=
  ⟨fun green_now dwellOf v t env s h =>
    update_one_occ_le green_now dwellOf v t env h s,
   fun dwellOf t v x x_try env sx rest h1 h2 =>
    check_stops_cons dwellOf t v x x_try env sx rest h1 h2,
   fun env sx t => stop_denied_false_iff env sx t⟩

/-- Empty simulation environment (all occupant lists empty, no recorded
arrivals) — the state at the start of a run. -/
def env_empty : Env :=
  { stop_occupancy := fun _ => []
    stop_release_time := fun _ => []
    last_arrival_time := fun _ => none }

/-- All-red signal assignment. -/
def green_all_red : String → Bool := fun _ => false

/-- Constant dwell-seconds lookup (the global default `dwell_sec = 20`). -/
def dwell_default : Option String → ℤ := fun _ => 20

/-- A bus one tick short of the first stop: crossing `-450` this tick. -/
def bus_probe : Vehicle :=
  { id := "bus_R61_0", kind := "bus", line := some "R61", x := -460, v := 11,
    stopped := false, stopped_at_station := false, queueing := false,
    dwell_until := none, at_stop := none, served_stops := [] }

/-- C1 witness: one update of the crossing bus from the empty state keeps
the occupant list of stop `-450` within capacity; the crossing step resolves
to the hold/admit alternative; and the denial condition unfolds as claimed
at the concrete state. -/
theorem C1_witness :
    (((update_one green_all_red dwell_default bus_probe 0 env_empty).2).stop_occupancy
      (-450)).length ≤ STOP_BERTHS ∧
    check_stops dwell_default 0 bus_probe (-460) (-449) env_empty ((-450) :: [450]) =
      some (if stop_denied env_empty (-450) 0 then
              hold_result bus_probe env_empty (-450)
            else admit_result dwell_default 0 bus_probe env_empty (-450)) ∧
    (stop_denied env_empty (-450) 0 = false ↔
      ((env_empty.stop_occupancy (-450)).length < STOP_BERTHS ∧
        ∀ la ∈ env_empty.last_arrival_time (-450), COINCIDENCE_WINDOW < 0 - la)) :=
  ⟨C1_theorem.1 green_all_red dwell_default bus_probe 0 env_empty (-450)
    (fun s' => by simp [env_empty, STOP_BERTHS]),
   C1_theorem.2.1 dwell_default 0 bus_probe (-460) (-449) env_empty (-450) [450]
    (by norm_num) (by norm_num),
   C1_theorem.2.2 env_empty (-450) 0⟩

/-! ### Claim C5 (corrected) -/

/-- The holding coordinates a vehicle can be moved back to by `update_one`:
the pre-stop queue standoff (`stop − 16`), the stop service position
(`stop − 0.1`), and the stop-line buffer (`stop line − 4.5`). -/
def holdPositions : List ℚ :=
  bus_stops.map (fun sx => sx - PRESTOP_HOLD) ++
    bus_stops.map (fun sx => sx - 0.1) ++
      (stoplines.map Prod.snd).map (fun sl => sl - STOPLINE_BUFFER)

lemma foldl_min_mem : ∀ (l : List ℚ) (a : ℚ), l.foldl min a ∈ a :: l := by
  intro l
  induction l with
  | nil => intro a; simp
  | cons b rest ih =>
    intro a
    have h := ih (min a b)
    simp only [List.foldl_cons]
    rcases min_choice a b with hm | hm <;> rcases List.mem_cons.mp h with h1 | h1
    · rw [h1, hm]; exact List.mem_cons_self _ _
    · exact List.mem_cons_of_mem _ (List.mem_cons_of_mem _ h1)
    · rw [h1, hm]; exact List.mem_cons_of_mem _ (List.mem_cons_self _ _)
    · exact List.mem_cons_of_mem _ (List.mem_cons_of_mem _ h1)

lemma next_stopline_mem (x s : ℚ) (h : next_stopline_x x = some s) :
    s ∈ stoplines.map Prod.snd := by
  unfold next_stopline_x at h
  cases hf : (stoplines.map Prod.snd).filter (fun sx => decide (x + 0.1 < sx)) with
  | nil => rw [hf] at h; simp at h
  | cons a rest =>
    rw [hf] at h
    simp only [Option.some.injEq] at h
    have hmem : s ∈ a :: rest := h ▸ foldl_min_mem rest a
    rw [← hf] at hmem
    exact List.mem_of_mem_filter hmem

lemma stopline_clamp_x (green_now : String → Bool) (v : Vehicle) (x x_try : ℚ)
    (hx : x ≤ x_try) :
    x ≤ (stopline_clamp green_now v x x_try).x ∨
      (stopline_clamp green_now v x x_try).x ∈ holdPositions := by
  unfold stopline_clamp
  cases hn : next_stopline_x x with
  | none => left; simpa using hx
  | some sx_next =>
    dsimp only
    split_ifs with hcond
    · rcases min_cases x_try (sx_next - STOPLINE_BUFFER) with ⟨heq, _⟩ | ⟨heq, _⟩
      · left; rw [heq]; exact hx
      · right
        rw [heq]
        unfold holdPositions
        refine List.mem_append.mpr (Or.inr ?_)
        exact List.mem_map.mpr ⟨sx_next, next_stopline_mem x sx_next hn, rfl⟩
    · left; simpa using hx

lemma check_stops_x_mem (dwellOf : Option String → ℤ) (t : ℤ) (v : Vehicle)
    (x x_try : ℚ) (env : Env) :
    ∀ (l : List ℚ) (r : Vehicle × Env),
      (∀ sx ∈ l, sx ∈ bus_stops) →
      check_stops dwellOf t v x x_try env l = some r →
      r.1.x ∈ holdPositions
  | [], r, _, hr => by simp [check_stops] at hr
  | sx :: rest, r, hl, hr => by
    rw [check_stops] at hr
    split_ifs at hr with hcross hd
    · simp only [Option.some.injEq] at hr
      subst hr
      unfold holdPositions
      refine List.mem_append.mpr (Or.inl (List.mem_append.mpr (Or.inl ?_)))
      exact List.mem_map.mpr ⟨sx, hl sx (List.mem_cons_self _ _), rfl⟩
    · simp only [Option.some.injEq] at hr
      subst hr
      unfold holdPositions
      refine List.mem_append.mpr (Or.inl (List.mem_append.mpr (Or.inr ?_)))
      exact List.mem_map.mpr ⟨sx, hl sx (List.mem_cons_self _ _), rfl⟩
    · exact check_stops_x_mem dwellOf t v x x_try env rest r
        (fun s hs => hl s (List.mem_cons_of_mem _ hs)) hr

lemma bus_release_x_le (env : Env) (v : Vehicle) (x_try : ℚ) (hx : v.x ≤ x_try) :
    v.x ≤ (bus_release env v v.x x_try).2.2.1 ∧
      (bus_release env v v.x x_try).2.2.1 ≤ (bus_release env v v.x x_try).2.2.2 ∧
      (bus_release env v v.x x_try).1.x = (bus_release env v v.x x_try).2.2.1 := by
  unfold bus_release
  cases v.at_stop with
  | none => exact ⟨le_refl _, hx, rfl⟩
  | some sx0 =>
    refine ⟨le_max_left _ _, max_le_max hx (le_refl _), rfl⟩

/-- A car inside the stop-line buffer zone of node J2 (`-300`), as left
there by a green-phase tick. -/
def car_probe : Vehicle :=
  { id := "car_0", kind := "car", line := none, x := -302, v := 10,
    stopped := false, stopped_at_station := false, queueing := false,
    dwell_until := none, at_stop := none, served_stops := [] }

/-- C5 (counterexample to the claim as stated): a car at `x = -302`
(inside the 4.5-unit stop-line buffer of node J2 at `-300`, reachable by
crossing the buffer zone on green) facing a non-green J2 is clamped back to
`-304.5 < -302`: its position decreases across the tick. -/
theorem C5_counterexample :
    (update_one green_all_red dwell_default car_probe 0 env_empty).1.x < car_probe.x := by
  norm_num [update_one, stopline_clamp, next_stopline_x, nearest_node,
    stoplines, STOPLINE_BUFFER, green_all_red, car_probe, List.filter,
    (by simp : ("car" : String) ≠ "bus")]

/-- C5 (amended): for a vehicle with nonnegative speed, the per-tick update
never decreases `x` except by repositioning the vehicle at one of the
physical holding boundaries — the pre-stop queue standoff (`stop − 16`),
the stop service position (`stop − 0.1`), or a stop-line buffer
(`stop line − 4.5`). -/
theorem C5_theorem (green_now : String → Bool) (dwellOf : Option String → ℤ)
    (v : Vehicle) (t : ℤ) (env : Env) (hv : 0 ≤ v.v) :
    v.x ≤ (update_one green_now dwellOf v t env).1.x ∨
      (update_one green_now dwellOf v t env).1.x ∈ holdPositions := by
  have hx : v.x ≤ v.x + v.v := by linarith
  unfold update_one
  split_ifs with hk
  · cases hdu : v.dwell_until with
    | some du =>
      dsimp only
      split_ifs with ht
      · left; exact le_refl _
      · obtain ⟨hr1, hr2, hr3⟩ := bus_release_x_le env v (v.x + v.v) hx
        cases hc : check_stops dwellOf t (bus_release env v v.x (v.x + v.v)).1
            (bus_release env v v.x (v.x + v.v)).2.2.1
            (bus_release env v v.x (v.x + v.v)).2.2.2
            (bus_release env v v.x (v.x + v.v)).2.1 bus_stops with
        | some res =>
          right
          exact check_stops_x_mem dwellOf t _ _ _ _ bus_stops res (fun _ hs => hs) hc
        | none =>
          rcases stopline_clamp_x green_now (bus_release env v v.x (v.x + v.v)).1
              (bus_release env v v.x (v.x + v.v)).2.2.1
              (bus_release env v v.x (v.x + v.v)).2.2.2 hr2 with hle | hmem
          · left; exact le_trans hr1 hle
          · right; exact hmem
    | none =>
      dsimp only
      cases hc : check_stops dwellOf t v v.x (v.x + v.v) env bus_stops with
      | some res =>
        right
        exact check_stops_x_mem dwellOf t _ _ _ _ bus_stops res (fun _ hs => hs) hc
      | none =>
        rcases stopline_clamp_x green_now v v.x (v.x + v.v) hx with hle | hmem
        · left; exact hle
        · right; exact hmem
  · rcases stopline_clamp_x green_now v v.x (v.x + v.v) hx with hle | hmem
    · left; exact hle
    · right; exact hmem

/-- C5 witness: the clamped car of the counterexample indeed lands on a
holding boundary (the amended disjunction holds at that concrete input). -/
theorem C5_witness :
    (0 : ℚ) ≤ car_probe.v ∧
    (car_probe.x ≤ (update_one green_all_red dwell_default car_probe 0 env_empty).1.x ∨
      (update_one green_all_red dwell_default car_probe 0 env_empty).1.x ∈ holdPositions) :=
  ⟨by norm_num [car_probe],
   C5_theorem green_all_red dwell_default car_probe 0 env_empty (by norm_num [car_probe])⟩

/-- C7 witness: the default cycle 90 — green is `int(0.6*90) = 54` and the
three phase characterizations hold at node J1, tick 10, offset 0. -/
theorem C7_witness :
    sim_G 90 = ⌊(0.6 : ℚ) * (90 : ℚ)⌋ ∧
    green_width 0.6 90 = sim_G 90 ∧
    sim_Y = 6 ∧
    (ew_state (fun _ => 0) 90 (sim_G 90) sim_Y "J1" 10 = "G" ↔
      ((10 : ℤ) + 0) % 90 < sim_G 90) ∧
    (ew_state (fun _ => 0) 90 (sim_G 90) sim_Y "J1" 10 = "y" ↔
      (sim_G 90 ≤ ((10 : ℤ) + 0) % 90 ∧ ((10 : ℤ) + 0) % 90 < sim_G 90 + 6)) ∧
    (ew_state (fun _ => 0) 90 (sim_G 90) sim_Y "J1" 10 = "r" ↔
      sim_G 90 + 6 ≤ ((10 : ℤ) + 0) % 90) :=
  C7_theorem 90 (fun _ => 0) "J1" 10 (by norm_num) (by norm_num)
